import Mathlib

/-!
Verification of the `lstm_imdb` notebook (sentiment classification demo).

The embedded code comes from `src/docs/apphub/NLP/lstm_imdb/lstm_imdb.ipynb`:
the sequence-padding helper `pad`, the data-preparation step, the model
topology `create_lstm`, and (modelled from the spec, because the library code
is not part of this repository) the pipeline `Reshape` op and the
`ModelSaver(save_best=True)` trace.
-/

namespace LstmImdb

/-- Hyperparameter cell of the notebook: vocabulary-size cutoff. -/
def MAX_WORDS : Nat := 10000

/-- Hyperparameter cell of the notebook: maximum sequence length. -/
def MAX_LEN : Nat := 500

/-- The notebook's padding helper:
`return input_list + [padding_value] * abs((len(input_list) - padding_size))`.
Python `len` and the target size are integers, the subtraction is over ℤ and
`abs` maps it back to a repetition count, so the appended block has
`|len(input_list) - padding_size|` copies of the fill value. -/
def pad (input_list : List Int) (padding_size : Nat) (padding_value : Int) : List Int :=
  input_list ++
    List.replicate ((input_list.length : Int) - (padding_size : Int)).natAbs padding_value

/-- The data-preparation step of the notebook applied to one dataset split:
`np.array([pad(x, MAX_LEN, 0) for x in xs])`. -/
def prepSplit (xs : List (List Int)) : List (List Int) :=
  xs.map (fun x => pad x MAX_LEN 0)

/-- Keras layer declarations appearing in `create_lstm`, recorded with the
arguments the notebook passes. -/
inductive Layer where
  | Embedding (input_dim output_dim input_length : Nat)
  | Conv1D (filters kernel_size : Nat) (padding activation : String)
  | MaxPooling1D (pool_size : Nat)
  | LSTM (units : Nat)
  | Dense (units : Nat) (activation : String)
deriving DecidableEq

/-- The notebook's `create_lstm`: the sequential stack of layers it adds, in
order. -/
def create_lstm : List Layer :=
  [Layer.Embedding MAX_WORDS 64 MAX_LEN,
   Layer.Conv1D 32 3 "same" "relu",
   Layer.MaxPooling1D 4,
   Layer.LSTM 64,
   Layer.Dense 250 "relu",
   Layer.Dense 1 "sigmoid"]

/-- Modelled from the spec: the pipeline op `Reshape([1], inputs="y",
outputs="y")` comes from the external training framework and its code is not
in this repository; per the spec it reshapes the label tensor from shape
`(N)` to `(N, 1)`, i.e. each of the `N` scalar labels becomes a row with
exactly one column. -/
def reshapeLabels (ys : List Int) : List (List Int) :=
  ys.map (fun y => [y])

/-- State of the best-checkpoint saver: the best evaluation loss seen so far
and the loss at which the checkpoint file was last written (`none` while no
file exists). -/
structure SaverState where
  best_loss : Option ℚ
  checkpoint : Option ℚ
deriving DecidableEq

/-- Whether an epoch's evaluation loss improves on the best seen so far
(any loss improves on "no epoch yet"). -/
def improves : Option ℚ → ℚ → Bool
  | none, _ => true
  | some b, l => decide (l < b)

/-- Modelled from the spec: `ModelSaver(model_name="lstm_imdb",
save_dir=save_dir, save_best=True)` comes from the external training
framework and its code is not in this repository; per the spec the checkpoint
is "written to a temporary location whenever evaluation loss is the best seen
so far", and otherwise nothing is written. One epoch-end step of that trace. -/
def saverStep (s : SaverState) (loss : ℚ) : SaverState :=
  if improves s.best_loss loss then { best_loss := some loss, checkpoint := some loss }
  else s

/-- Before the first epoch no best loss and no checkpoint file exist. -/
def initSaver : SaverState := { best_loss := none, checkpoint := none }

/-- The saver run over the per-epoch evaluation losses of one training run. -/
def runSaver (losses : List ℚ) : SaverState :=
  losses.foldl saverStep initSaver

lemma pad_length (xs : List Int) (n : Nat) (v : Int) :
    (pad xs n v).length = xs.length + ((xs.length : Int) - (n : Int)).natAbs := by
  simp [pad]

lemma pad_length_of_le (xs : List Int) (n : Nat) (v : Int) (h : xs.length ≤ n) :
    (pad xs n v).length = n := by
  rw [pad_length]
  omega

lemma pad_eq_of_le (x : List Int) (n : Nat) (v : Int) (hx : x.length ≤ n) :
    pad x n v = x ++ List.replicate (n - x.length) v := by
  have h : ((x.length : Int) - (n : Int)).natAbs = n - x.length := by omega
  rw [pad, h]

lemma runSaver_concat (ls : List ℚ) (a : ℚ) :
    runSaver (ls ++ [a]) = saverStep (runSaver ls) a := by
  simp [runSaver, List.foldl_append]

lemma runSaver_take_succ (losses : List ℚ) (i : Nat) (l : ℚ) (h : losses[i]? = some l) :
    runSaver (losses.take (i + 1)) = saverStep (runSaver (losses.take i)) l := by
  rw [List.take_succ, h]
  simp [runSaver, List.foldl_append]

lemma saverStep_of_not_improves (s : SaverState) (l : ℚ)
    (h : improves s.best_loss l = false) : saverStep s l = s := by
  simp [saverStep, h]

lemma getElem?_lt_length {α : Type} {xs : List α} {i : Nat} {a : α}
    (h : xs[i]? = some a) : i < xs.length := by
  by_contra hc
  rw [List.getElem?_eq_none (by omega)] at h
  exact Option.noConfusion h

lemma checkpoint_exists_aux (losses : List ℚ) :
    (runSaver losses).checkpoint.isSome = true →
    ∃ i l, losses[i]? = some l ∧
      improves (runSaver (losses.take i)).best_loss l = true := by
  induction losses using List.reverseRecOn with
  | nil => simp [runSaver, initSaver]
  | append_singleton ls a ih =>
    rw [runSaver_concat]
    by_cases himp : improves (runSaver ls).best_loss a = true
    · intro _
      refine ⟨ls.length, a, by simp, ?_⟩
      rwa [List.take_left ls]
    · rw [saverStep_of_not_improves _ _ (by simpa using himp)]
      intro hsome
      obtain ⟨i, l, hl, himp'⟩ := ih hsome
      have hi : i < ls.length := getElem?_lt_length hl
      refine ⟨i, l, ?_, ?_⟩
      · rw [List.getElem?_append_left hi]
        exact hl
      · rwa [List.take_append_of_le_length (Nat.le_of_lt hi)]

end LstmImdb

namespace LstmImdb

/-- C1: for every input list strictly shorter than the target padding length,
`pad input_list padding_size padding_value` returns a list of length exactly
`padding_size`. -/
theorem pad_length_of_lt (xs : List Int) (n : Nat) (v : Int) (h : xs.length < n) :
    (pad xs n v).length = n :=
  pad_length_of_le xs n v (Nat.le_of_lt h)

/-- Witness for C1 at the concrete input `[1, 2, 3]`, target length 5, fill 7. -/
theorem pad_length_of_lt_witness :
    ([1, 2, 3] : List Int).length < 5 ∧ (pad [1, 2, 3] 5 7).length = 5 :=
  ⟨by decide, pad_length_of_lt [1, 2, 3] 5 7 (by decide)⟩

/-- C2: for every input list strictly longer than the target padding length,
`pad` appends `length - padding_size` repetitions of the fill value, so the
output has length `2 * length - padding_size`, strictly greater than both the
input length and the target length. -/
theorem pad_overlength (xs : List Int) (n : Nat) (v : Int) (h : n < xs.length) :
    pad xs n v = xs ++ List.replicate (xs.length - n) v ∧
    (pad xs n v).length = 2 * xs.length - n ∧
    xs.length < (pad xs n v).length ∧
    n < (pad xs n v).length := by
  have hk : ((xs.length : Int) - (n : Int)).natAbs = xs.length - n := by omega
  refine ⟨by rw [pad, hk], ?_, ?_, ?_⟩ <;> rw [pad_length, hk] <;> omega

/-- Witness for C2 at the concrete input `[1, 2, 3]`, target length 2, fill 0. -/
theorem pad_overlength_witness :
    2 < ([1, 2, 3] : List Int).length ∧
    (pad [1, 2, 3] 2 0 = [1, 2, 3] ++ List.replicate (([1, 2, 3] : List Int).length - 2) 0 ∧
      (pad [1, 2, 3] 2 0).length = 2 * ([1, 2, 3] : List Int).length - 2 ∧
      ([1, 2, 3] : List Int).length < (pad [1, 2, 3] 2 0).length ∧
      2 < (pad [1, 2, 3] 2 0).length) :=
  ⟨by decide, pad_overlength [1, 2, 3] 2 0 (by decide)⟩

/-- C3: for every input list, target length and fill value, the output of
`pad` is the input followed by zero or more copies of the fill value, and its
length is at least the target length. -/
theorem pad_extends (xs : List Int) (n : Nat) (v : Int) :
    (∃ k, pad xs n v = xs ++ List.replicate k v) ∧ n ≤ (pad xs n v).length := by
  refine ⟨⟨((xs.length : Int) - (n : Int)).natAbs, rfl⟩, ?_⟩
  rw [pad_length]
  omega

/-- C9: padding is idempotent on inputs not exceeding the target length. -/
theorem pad_idem (xs : List Int) (n : Nat) (v : Int) (h : xs.length ≤ n) :
    pad (pad xs n v) n v = pad xs n v := by
  have hlen : (pad xs n v).length = n := pad_length_of_le xs n v h
  rw [pad, hlen]
  simp

/-- Witness for C9 at the concrete input `[4, 5]`, target length 4, fill 0. -/
theorem pad_idem_witness :
    ([4, 5] : List Int).length ≤ 4 ∧ pad (pad [4, 5] 4 0) 4 0 = pad [4, 5] 4 0 :=
  ⟨by decide, pad_idem [4, 5] 4 0 (by decide)⟩

/-- C4: in every run of the saver over the per-epoch evaluation losses, the
checkpoint exists only after some epoch's evaluation loss improves on the
previous best, and an epoch whose loss does not improve on the best seen so
far leaves the stored checkpoint unchanged. -/
theorem modelSaver_checkpoint_discipline (losses : List ℚ) :
    ((runSaver losses).checkpoint.isSome = true →
      ∃ i l, losses[i]? = some l ∧
        improves (runSaver (losses.take i)).best_loss l = true) ∧
    (∀ i l, losses[i]? = some l →
      improves (runSaver (losses.take i)).best_loss l = false →
      (runSaver (losses.take (i + 1))).checkpoint
        = (runSaver (losses.take i)).checkpoint) := by
  refine ⟨checkpoint_exists_aux losses, ?_⟩
  intro i l hl hbad
  rw [runSaver_take_succ losses i l hl, saverStep_of_not_improves _ _ hbad]

/-- Witness for C4 on the concrete loss sequence `[3, 2, 4]`: the checkpoint
exists because some epoch improved, and epoch 2 (loss 4, worse than the best
loss 2) leaves the checkpoint unchanged. -/
theorem modelSaver_checkpoint_discipline_witness :
    ((runSaver [3, 2, 4]).checkpoint.isSome = true ∧
      ∃ i l, ([3, 2, 4] : List ℚ)[i]? = some l ∧
        improves (runSaver (([3, 2, 4] : List ℚ).take i)).best_loss l = true) ∧
    (([3, 2, 4] : List ℚ)[2]? = some 4 ∧
      improves (runSaver (([3, 2, 4] : List ℚ).take 2)).best_loss 4 = false ∧
      (runSaver (([3, 2, 4] : List ℚ).take 3)).checkpoint
        = (runSaver (([3, 2, 4] : List ℚ).take 2)).checkpoint) :=
  ⟨⟨by decide, (modelSaver_checkpoint_discipline [3, 2, 4]).1 (by decide)⟩,
   by decide, by decide,
   (modelSaver_checkpoint_discipline [3, 2, 4]).2 2 4 (by decide) (by decide)⟩

/-- C5: for every batch of `N` scalar labels, the label reshape operation
produces `N` rows of exactly one column each, i.e. it maps shape `(N)` to
shape `(N, 1)`. -/
theorem reshape_labels_shape (ys : List Int) :
    (reshapeLabels ys).length = ys.length ∧ ∀ r ∈ reshapeLabels ys, r.length = 1 := by
  refine ⟨by simp [reshapeLabels], ?_⟩
  intro r hr
  simp only [reshapeLabels, List.mem_map] at hr
  obtain ⟨y, _, rfl⟩ := hr
  rfl

/-- C7: if every review in the train and eval splits has length at most
`MAX_LEN`, then every padded review produced by the data-preparation step has
length exactly `MAX_LEN` and is the review with the fill value 0 appended at
the end. -/
theorem data_prep_padded (x_train x_eval : List (List Int))
    (htr : ∀ x ∈ x_train, x.length ≤ MAX_LEN)
    (hev : ∀ x ∈ x_eval, x.length ≤ MAX_LEN) :
    (∀ p ∈ prepSplit x_train, p.length = MAX_LEN) ∧
    (∀ p ∈ prepSplit x_eval, p.length = MAX_LEN) ∧
    (∀ x ∈ x_train, pad x MAX_LEN 0 = x ++ List.replicate (MAX_LEN - x.length) 0) ∧
    (∀ x ∈ x_eval, pad x MAX_LEN 0 = x ++ List.replicate (MAX_LEN - x.length) 0) := by
  refine ⟨?_, ?_, fun x hx => pad_eq_of_le x MAX_LEN 0 (htr x hx),
    fun x hx => pad_eq_of_le x MAX_LEN 0 (hev x hx)⟩
  · intro p hp
    simp only [prepSplit, List.mem_map] at hp
    obtain ⟨x, hx, rfl⟩ := hp
    exact pad_length_of_le x MAX_LEN 0 (htr x hx)
  · intro p hp
    simp only [prepSplit, List.mem_map] at hp
    obtain ⟨x, hx, rfl⟩ := hp
    exact pad_length_of_le x MAX_LEN 0 (hev x hx)

/-- Witness for C7 on the concrete splits `x_train = [[1, 2]]`,
`x_eval = [[3]]`, whose reviews are shorter than `MAX_LEN`. -/
theorem data_prep_padded_witness :
    (∀ x ∈ ([[1, 2]] : List (List Int)), x.length ≤ MAX_LEN) ∧
    (∀ x ∈ ([[3]] : List (List Int)), x.length ≤ MAX_LEN) ∧
    ((∀ p ∈ prepSplit [[1, 2]], p.length = MAX_LEN) ∧
      (∀ p ∈ prepSplit [[3]], p.length = MAX_LEN) ∧
      (∀ x ∈ ([[1, 2]] : List (List Int)),
        pad x MAX_LEN 0 = x ++ List.replicate (MAX_LEN - x.length) 0) ∧
      (∀ x ∈ ([[3]] : List (List Int)),
        pad x MAX_LEN 0 = x ++ List.replicate (MAX_LEN - x.length) 0)) :=
  ⟨by decide, by decide, data_prep_padded [[1, 2]] [[3]] (by decide) (by decide)⟩

/-- C8: the model built by `create_lstm` is exactly the fixed sequential
stack embedding → 1-D convolution → max pooling → LSTM → dense → dense, the
last layer producing a single sigmoid-activated scalar per sample. -/
theorem create_lstm_topology :
    ∃ v d len f k p a m u d1 a1,
      create_lstm =
        [Layer.Embedding v d len, Layer.Conv1D f k p a, Layer.MaxPooling1D m,
         Layer.LSTM u, Layer.Dense d1 a1, Layer.Dense 1 "sigmoid"] :=
  ⟨MAX_WORDS, 64, MAX_LEN, 32, 3, "same", "relu", 4, 64, 250, "relu", rfl⟩

/-- C10: `pad` never truncates or alters its input: the first `length input`
elements of the output equal the input list, even when the input is longer
than the target length. -/
theorem pad_take_input (xs : List Int) (n : Nat) (v : Int) :
    (pad xs n v).take xs.length = xs := by
  rw [pad]
  exact List.take_left xs _

end LstmImdb
